import Mathlib

/-!
Verification development for the thread-aware consistent-hashing load balancer
(`source/common/upstream/thread_aware_lb_impl.h`).

The header under `src/` contains the class declarations and the inline bodies of
`hashKey`, `peekAnotherHost`, `chooseHost` (base class stub), `factory`,
`initNormalizedHostWeightMap`, `threadSafeSetCrossPriorityHostMap` and
`threadSafeGetCrossPriorityHostMap`; those are embedded from the source.
The out-of-line bodies (`BoundedLoadHashingLoadBalancer::chooseHost`,
`hostOverloadFactor`, `ThreadAwareLoadBalancerBase::refresh`,
`LoadBalancerFactoryImpl::create`) are not under `src/`; the definitions for
them are modelled from the specification and say so in their doc comments.

Machine doubles are modelled as rationals; 64-bit hashes as natural numbers
(the hash is only ever passed through to the table, never operated on).
-/

/-- Model of a `ProtobufWkt::Value`: only the kind case and the string payload
matter to this code. `notSet` is `KIND_NOT_SET` (the default empty value that
`Config::Metadata::metadataValue` yields for an absent entry). -/
inductive ProtoValue where
  | notSet
  | nullValue
  | numberValue (n : Int)
  | stringValue (s : String)
  | boolValue (b : Bool)
  | structValue
  | listValue
deriving DecidableEq, Repr

/-- Protobuf accessor semantics: `string_value()` on a value whose kind is not
`kStringValue` returns the default empty string. -/
def ProtoValue.string_value : ProtoValue → String
  | ProtoValue.stringValue s => s
  | _ => ""

/-- Host metadata: filter name to a struct of key/value fields, mirroring
`envoy.config.core.v3.Metadata.filter_metadata`. -/
abbrev Metadata := List (String × List (String × ProtoValue))

/-- Lookup of `filter_metadata[filter].fields[key]`, `none` when either level
is absent. -/
def metadataLookup (md : Metadata) (filter key : String) : Option ProtoValue :=
  match md.find? (fun p => p.1 == filter) with
  | none => none
  | some p => (p.2.find? (fun q => q.1 == key)).map (fun q => q.2)

/-- `Config::Metadata::metadataValue`: returns the stored value, or the empty
`Value` (kind `KIND_NOT_SET`) when the filter or key is absent. -/
def metadataValue (md : Metadata) (filter key : String) : ProtoValue :=
  (metadataLookup md filter key).getD ProtoValue.notSet

/-- `Config::MetadataFilters::get().ENVOY_LB`. -/
def ENVOY_LB : String := "envoy.lb"

/-- `Config::MetadataEnvoyLbKeys::get().HASH_KEY`. -/
def HASH_KEY : String := "hash_key"

/-- A backend host, as seen by this core: identity, hostname, address string,
metadata. The live active-request counter is externally owned and is modelled
as a separate load function where needed. -/
structure Host where
  id : Nat
  hostname : String
  address : String
  metadata : Metadata
deriving DecidableEq, Repr

/-- `HashingLoadBalancer::hashKey` (header, lines 34-46): take the
`envoy.lb`/`hash_key` metadata value; a non-string kind only logs; the key is
the value's `string_value()`; when that is empty, fall back to hostname
(when `use_hostname`) or to the address string. -/
def HashingLoadBalancer.hashKey (host : Host) (use_hostname : Bool) : String :=
  let val := metadataValue host.metadata ENVOY_LB HASH_KEY
  let hash_key := val.string_value
  if hash_key = "" then
    (if use_hostname then host.hostname else host.address)
  else hash_key

/-- `NormalizedHostWeightVector`: ordered (host, normalized weight) pairs.
Doubles are modelled as rationals. -/
abbrev NormalizedHostWeightVector := List (Host × Rat)

/-- `NormalizedHostWeightMap` (`std::map<HostConstSharedPtr, double>`):
association list keyed by host, no duplicate keys. -/
abbrev NormalizedHostWeightMap := List (Host × Rat)

/-- `std::map` insert-or-assign used by `operator[]=`: replace the value when
the key is present, append otherwise. -/
def mapInsert (m : NormalizedHostWeightMap) (h : Host) (w : Rat) :
    NormalizedHostWeightMap :=
  match m with
  | [] => [(h, w)]
  | p :: rest => if p.1 = h then (p.1, w) :: rest else p :: mapInsert rest h w

/-- `BoundedLoadHashingLoadBalancer::initNormalizedHostWeightMap` (header,
lines 74-81): `normalized_host_weights_map[item.first] = item.second` for each
vector item. -/
def initNormalizedHostWeightMap (v : NormalizedHostWeightVector) :
    NormalizedHostWeightMap :=
  v.foldl (fun m item => mapInsert m item.1 item.2) []

/-- State of a `BoundedLoadHashingLoadBalancer` (header, lines 55-85): the
wrapped inner hashing table (a pure function of hash and attempt per the
spec's Hashing Table capability), the normalized host weight vector and the
hash balance factor. `load` is the externally-tracked live active-request
count per host, which the decorator reads but does not own. -/
structure BoundedLoadHashingLoadBalancer where
  hashing_lb : Nat → Nat → Option Host
  normalized_host_weights : NormalizedHostWeightVector
  hash_balance_factor : Nat
  load : Host → Nat

/-- The `normalized_host_weights_map_` member, built by the constructor from
the vector. -/
def BoundedLoadHashingLoadBalancer.normalized_host_weights_map
    (lb : BoundedLoadHashingLoadBalancer) : NormalizedHostWeightMap :=
  initNormalizedHostWeightMap lb.normalized_host_weights

/-- Number of distinct hosts in the table: the size of the host weight map. -/
def BoundedLoadHashingLoadBalancer.numHosts
    (lb : BoundedLoadHashingLoadBalancer) : Nat :=
  lb.normalized_host_weights_map.length

/-- Normalized weight of a host, looked up in the weight map (0 for a host
outside the map). -/
def BoundedLoadHashingLoadBalancer.weightOf
    (lb : BoundedLoadHashingLoadBalancer) (h : Host) : Rat :=
  ((lb.normalized_host_weights_map.find? (fun p => p.1 == h)).map
    (fun p => p.2)).getD 0

/-- Total live active-request count across the table's hosts, the
proportionality constant of a host's fair share. -/
def BoundedLoadHashingLoadBalancer.clusterActiveLoad
    (lb : BoundedLoadHashingLoadBalancer) : Nat :=
  (lb.normalized_host_weights_map.map (fun p => lb.load p.1)).sum

/-- Modelled from the spec: the body of
`BoundedLoadHashingLoadBalancer::hostOverloadFactor` is not under `src/`
(only declared in the header). Per spec 4.2 the overload factor is
currentLoad(c) / allowedCapacity(c) with allowedCapacity proportional to
w(c) * hashBalanceFactor/100; the fair-share constant is the total live load.
The test overloadFactor > 1 is stated multiplicatively
(load * 100 > totalLoad * w * factor) to avoid division. -/
def BoundedLoadHashingLoadBalancer.hostOverloaded
    (lb : BoundedLoadHashingLoadBalancer) (host : Host) (weight : Rat) : Bool :=
  decide ((lb.load host : Rat) * 100 >
    (lb.clusterActiveLoad : Rat) * weight * (lb.hash_balance_factor : Rat))

/-- Modelled from the spec: the body of
`BoundedLoadHashingLoadBalancer::chooseHost` is not under `src/` (only
declared at header line 67). Probe loop of spec 4.2 steps 1-5: at each
iteration take the inner table's candidate for the current attempt; return it
when it is within its allowed capacity; otherwise advance to the next attempt,
for at most `fuel` probes; when the probes are exhausted return the original
attempt-0 candidate (spec: bounded load is never a reason to refuse a
request). An absent inner candidate cannot be returned as within capacity and
the loop moves on, so that the never-absent degrade path of the spec is kept.
Returns the chosen host together with the number of probes the loop made. -/
def BoundedLoadHashingLoadBalancer.probeLoop
    (lb : BoundedLoadHashingLoadBalancer) (hash : Nat) :
    Nat → Nat → Option Host × Nat
  | _, 0 => (lb.hashing_lb hash 0, 0)
  | attempt, fuel + 1 =>
    match lb.hashing_lb hash attempt with
    | some c =>
      if lb.hostOverloaded c (lb.weightOf c) then
        let r := lb.probeLoop hash (attempt + 1) fuel
        (r.1, r.2 + 1)
      else (some c, 1)
    | none =>
      let r := lb.probeLoop hash (attempt + 1) fuel
      (r.1, r.2 + 1)

/-- Modelled from the spec: `BoundedLoadHashingLoadBalancer::chooseHost`.
Hash balance factor 100 means a slack factor of 1.0, i.e. bounding disabled:
pure pass-through to the inner table (spec 4.2). Otherwise run the probe
loop, bounded by the number of distinct hosts in the table. -/
def BoundedLoadHashingLoadBalancer.chooseHost
    (lb : BoundedLoadHashingLoadBalancer) (hash attempt : Nat) : Option Host :=
  if lb.hash_balance_factor = 100 then lb.hashing_lb hash attempt
  else (lb.probeLoop hash attempt lb.numHosts).1

/-- Number of probes the re-probe loop of `chooseHost` makes (0 when bounding
is disabled and the call is a pass-through). -/
def BoundedLoadHashingLoadBalancer.chooseHostProbes
    (lb : BoundedLoadHashingLoadBalancer) (hash attempt : Nat) : Nat :=
  if lb.hash_balance_factor = 100 then 0
  else (lb.probeLoop hash attempt lb.numHosts).2

/-- A hashing table as handed to workers: the pure (hash, attempt) to host
selection function of the spec's Hashing Table capability. -/
abbrev HashingTable := Nat → Nat → Option Host

/-- `PerPriorityState` (header, lines 104-107): the priority's hashing load
balancer (null when the priority had no eligible host) and the global panic
flag. -/
structure PerPriorityState where
  current_lb_ : Option HashingTable
  global_panic_ : Bool

/-- Modelled from the spec: the eligible host set of a priority is chosen by
the standard healthy, then degraded, then all-hosts fallback (spec 4.1); the
body of `refresh()` that performs this selection is not under `src/`. Hosts
carry their configured (pre-normalization) weights. -/
def eligibleHosts (healthy degraded all : List (Host × Nat)) :
    List (Host × Nat) :=
  if healthy.isEmpty then (if degraded.isEmpty then all else degraded)
  else healthy

/-- Modelled from the spec: weight normalization of spec 4.1, each configured
weight divided by the priority's total so the weights sum to 1. -/
def normalizeWeights (hosts : List (Host × Nat)) : NormalizedHostWeightVector :=
  let total : Nat := (hosts.map (fun p => p.2)).sum
  hosts.map (fun p => (p.1, (p.2 : Rat) / (total : Rat)))

/-- Smallest normalized weight observed in a vector. -/
def minNormalizedWeight (nw : NormalizedHostWeightVector) : Rat :=
  (nw.map (fun p => p.2)).foldl min 1

/-- Largest normalized weight observed in a vector. -/
def maxNormalizedWeight (nw : NormalizedHostWeightVector) : Rat :=
  (nw.map (fun p => p.2)).foldl max 0

/-- Modelled from the spec: the per-priority body of
`ThreadAwareLoadBalancerBase::refresh` (declared at header line 152, body not
under `src/`). Per spec 4.1: select the eligible set by the fallback; if it is
empty record a null table with panic set; otherwise normalize the weights,
invoke the external table-builder capability with them and the observed
min/max normalized weight, and wrap the result in the bounded-load decorator
when a hash balance factor is configured. `builder` is the external
`createLoadBalancer` capability, `load` the external live-request signal. -/
def refreshPriority (builder : NormalizedHostWeightVector → Rat → Rat → HashingTable)
    (load : Host → Nat) (hash_balance_factor : Option Nat)
    (healthy degraded all : List (Host × Nat)) : PerPriorityState :=
  let eligible := eligibleHosts healthy degraded all
  if eligible.isEmpty then { current_lb_ := none, global_panic_ := true }
  else
    let nw := normalizeWeights eligible
    let table := builder nw (minNormalizedWeight nw) (maxNormalizedWeight nw)
    let final : HashingTable :=
      match hash_balance_factor with
      | some f =>
        fun h a =>
          BoundedLoadHashingLoadBalancer.chooseHost
            { hashing_lb := table, normalized_host_weights := nw,
              hash_balance_factor := f, load := load } h a
      | none => table
    { current_lb_ := some final, global_panic_ := false }

/-- Modelled from the spec: `refresh()` assembles one `PerPriorityState` per
priority level from that priority's healthy/degraded/all host lists. -/
def refresh (builder : NormalizedHostWeightVector → Rat → Rat → HashingTable)
    (load : Host → Nat) (hash_balance_factor : Option Nat)
    (priorities : List (List (Host × Nat) × List (Host × Nat) × List (Host × Nat))) :
    List PerPriorityState :=
  priorities.map (fun p =>
    refreshPriority builder load hash_balance_factor p.1 p.2.1 p.2.2)

/-- `HostMapConstSharedPtr`: cross-priority map from host address to host. -/
abbrev HostMap := List (String × Host)

/-- The load-balancer context a worker receives: it supplies a precomputed
64-bit hash (optional). Other context facilities are out of scope. -/
structure LoadBalancerContext where
  hash : Option Nat

/-- Per-priority healthy load distribution vector (`HealthyLoad`). -/
abbrev HealthyLoad := List Nat

/-- Per-priority degraded load distribution vector (`DegradedLoad`). -/
abbrev DegradedLoad := List Nat

/-- `LoadBalancerFactoryImpl` shared state (header, lines 143-146): the three
components guarded by the factory mutex. External `stats_`/`random_`
references are omitted. -/
structure LoadBalancerFactoryImpl where
  per_priority_state_ : List PerPriorityState
  healthy_per_priority_load_ : HealthyLoad
  degraded_per_priority_load_ : DegradedLoad

/-- `ThreadAwareLoadBalancerBase` state (header, lines 163-176): the factory
and the cross-priority host map (its mutex is modelled by the sequential
state-passing discipline). -/
structure ThreadAwareLoadBalancerBase where
  factory_ : LoadBalancerFactoryImpl
  cross_priority_host_map_ : HostMap

/-- `ThreadAwareLoadBalancerBase::factory` (header, line 87): returns the
factory member. -/
def ThreadAwareLoadBalancerBase.factory (s : ThreadAwareLoadBalancerBase) :
    LoadBalancerFactoryImpl :=
  s.factory_

/-- Result of a selection call that may hit an unimplemented stub. -/
inductive SelectResult where
  | notImplemented
  | selected (h : Option Host)

/-- `ThreadAwareLoadBalancerBase::chooseHost` (header, line 91):
`NOT_IMPLEMENTED_GCOVR_EXCL_LINE` - an unconditional failure for every
context. -/
def ThreadAwareLoadBalancerBase.chooseHost (_s : ThreadAwareLoadBalancerBase)
    (_context : LoadBalancerContext) : SelectResult :=
  SelectResult.notImplemented

/-- `ThreadAwareLoadBalancerBase::peekAnotherHost` (header, line 93):
preconnect is not implemented for hash-based load balancing; always
`nullptr`. -/
def ThreadAwareLoadBalancerBase.peekAnotherHost
    (_s : ThreadAwareLoadBalancerBase) (_context : LoadBalancerContext) :
    Option Host :=
  none

/-- `ThreadAwareLoadBalancerBase::threadSafeSetCrossPriorityHostMap` (header,
lines 154-157): under the cross-priority map mutex, replace the map member
wholesale. The mutex is modelled by sequential state passing. -/
def threadSafeSetCrossPriorityHostMap (s : ThreadAwareLoadBalancerBase)
    (host_map : HostMap) : ThreadAwareLoadBalancerBase :=
  { s with cross_priority_host_map_ := host_map }

/-- `ThreadAwareLoadBalancerBase::threadSafeGetCrossPriorityHostMap` (header,
lines 158-161): under the same mutex, read the map member. -/
def threadSafeGetCrossPriorityHostMap (s : ThreadAwareLoadBalancerBase) :
    HostMap :=
  s.cross_priority_host_map_

/-- Worker-side `LoadBalancerImpl` (header, lines 110-128): the three
components captured from the factory plus the cross-priority host map.
External `stats_`/`random_` references are omitted. -/
structure LoadBalancerImpl where
  per_priority_state_ : List PerPriorityState
  healthy_per_priority_load_ : HealthyLoad
  degraded_per_priority_load_ : DegradedLoad
  cross_priority_host_map_ : HostMap

/-- `LoadBalancerImpl::peekAnotherHost` (header, line 118): preconnect is not
implemented for hash-based load balancing; always `nullptr`. -/
def LoadBalancerImpl.peekAnotherHost (_lb : LoadBalancerImpl)
    (_context : LoadBalancerContext) : Option Host :=
  none

/-!
Snapshot publication model. The bodies of `refresh()`'s publication section
and of `LoadBalancerFactoryImpl::create` are not under `src/`; per the spec,
`refresh()` assigns the three factory components under the factory mutex and
`create()` copies the three references under the same mutex. The interleaving
of the single writer (control thread) with readers is modelled as a
transition system over the factory's guarded fields, each component abstracted
to the rebuild generation it was produced by; the writer's critical section is
a sequence of per-field assignment steps so that torn intermediate states
exist in the model and are shown unobservable. -/

/-- Program counter of the single writer thread inside `refresh()`'s
publication section. -/
inductive RefreshPc where
  | outside
  | writeStates
  | writeHealthy
  | writeDegraded
  | unlock
deriving DecidableEq, Repr

/-- The factory's mutex-guarded fields, each component abstracted to the
rebuild generation that produced it, plus the writer's program counter and the
generation currently being published. -/
structure FactorySnapshotState where
  lock_held : Bool
  per_priority_gen : Nat
  healthy_gen : Nat
  degraded_gen : Nat
  pc : RefreshPc
  publishing_gen : Nat
deriving DecidableEq, Repr

/-- Before the first publication: every component from generation 0, mutex
free, writer outside its critical section. -/
def initialFactoryState : FactorySnapshotState :=
  { lock_held := false, per_priority_gen := 0, healthy_gen := 0,
    degraded_gen := 0, pc := RefreshPc.outside, publishing_gen := 0 }

/-- Modelled from the spec: one step of `refresh()`'s publication protocol
(single writer). It acquires the factory mutex, assigns the three guarded
fields one at a time from the freshly rebuilt generation, and releases the
mutex. -/
inductive RefreshStep : FactorySnapshotState → FactorySnapshotState → Prop where
  | acquire (s : FactorySnapshotState) :
      s.pc = RefreshPc.outside → s.lock_held = false →
      RefreshStep s { s with lock_held := true, pc := RefreshPc.writeStates,
                             publishing_gen := s.publishing_gen + 1 }
  | writeStates (s : FactorySnapshotState) :
      s.pc = RefreshPc.writeStates →
      RefreshStep s { s with per_priority_gen := s.publishing_gen,
                             pc := RefreshPc.writeHealthy }
  | writeHealthy (s : FactorySnapshotState) :
      s.pc = RefreshPc.writeHealthy →
      RefreshStep s { s with healthy_gen := s.publishing_gen,
                             pc := RefreshPc.writeDegraded }
  | writeDegraded (s : FactorySnapshotState) :
      s.pc = RefreshPc.writeDegraded →
      RefreshStep s { s with degraded_gen := s.publishing_gen,
                             pc := RefreshPc.unlock }
  | release (s : FactorySnapshotState) :
      s.pc = RefreshPc.unlock →
      RefreshStep s { s with lock_held := false, pc := RefreshPc.outside }

/-- States reachable from the initial state by writer steps. -/
inductive ReachableFactoryState : FactorySnapshotState → Prop where
  | init : ReachableFactoryState initialFactoryState
  | step {s t : FactorySnapshotState} : ReachableFactoryState s →
      RefreshStep s t → ReachableFactoryState t

/-- Modelled from the spec: `LoadBalancerFactoryImpl::create` (declared at
header line 136, body not under `src/`) copies the three guarded components
under the factory mutex. A reader's critical section is a constant-size copy,
modelled as one atomic observation available exactly when the mutex is free;
it yields the generations of the three captured components. -/
def factoryCreate (s : FactorySnapshotState) : Option (Nat × Nat × Nat) :=
  if s.lock_held then none
  else some (s.per_priority_gen, s.healthy_gen, s.degraded_gen)

/-- Inductive invariant of the publication protocol: the mutex is held
throughout the writer's critical section, the fields written so far carry the
generation being published, and whenever the mutex is free all three
components carry the same generation. -/
def snapshotInv (s : FactorySnapshotState) : Prop :=
  (s.pc = RefreshPc.outside →
    s.lock_held = false ∧ s.per_priority_gen = s.publishing_gen ∧
    s.healthy_gen = s.publishing_gen ∧ s.degraded_gen = s.publishing_gen) ∧
  (s.pc ≠ RefreshPc.outside → s.lock_held = true) ∧
  (s.pc = RefreshPc.writeHealthy → s.per_priority_gen = s.publishing_gen) ∧
  (s.pc = RefreshPc.writeDegraded →
    s.per_priority_gen = s.publishing_gen ∧ s.healthy_gen = s.publishing_gen) ∧
  (s.pc = RefreshPc.unlock →
    s.per_priority_gen = s.publishing_gen ∧ s.healthy_gen = s.publishing_gen ∧
    s.degraded_gen = s.publishing_gen)

/-- Concrete host with no metadata, for evaluation. -/
def demoHostA : Host :=
  { id := 1, hostname := "host-a", address := "10.0.0.1:80", metadata := [] }

/-- Concrete host with a string-typed hash-key override. -/
def demoHostB : Host :=
  { id := 2, hostname := "host-b", address := "10.0.0.2:80",
    metadata := [("envoy.lb", [("hash_key", ProtoValue.stringValue "override-key")])] }

/-- Concrete host with a present but number-typed hash-key override. -/
def demoHostC : Host :=
  { id := 3, hostname := "host-c", address := "10.0.0.3:80",
    metadata := [("envoy.lb", [("hash_key", ProtoValue.numberValue 7)])] }

/-- Concrete bounded-load decorator with bounding enabled (factor 125). -/
def demoBoundedLb : BoundedLoadHashingLoadBalancer :=
  { hashing_lb := fun _ _ => some demoHostA,
    normalized_host_weights := [(demoHostA, 1)],
    hash_balance_factor := 125,
    load := fun _ => 0 }

/-- Concrete bounded-load decorator with bounding disabled (factor 100). -/
def demoPassLb : BoundedLoadHashingLoadBalancer :=
  { hashing_lb := fun _ _ => some demoHostA,
    normalized_host_weights := [(demoHostA, 1)],
    hash_balance_factor := 100,
    load := fun _ => 0 }

/-- Concrete decorator with bounding disabled whose inner table serves only
attempt 0: exhibits that the factor-100 pass-through forwards the attempt
unchanged. -/
def cexPassThroughLb : BoundedLoadHashingLoadBalancer :=
  { hashing_lb := fun _ attempt => if attempt = 0 then some demoHostA else none,
    normalized_host_weights := [(demoHostA, 1)],
    hash_balance_factor := 100,
    load := fun _ => 0 }

/-- Concrete external table-builder capability, for evaluation. -/
def demoBuilder : NormalizedHostWeightVector → Rat → Rat → HashingTable :=
  fun _ _ _ => fun _ _ => none

/-- Concrete external live-request signal, for evaluation. -/
def demoLoad : Host → Nat := fun _ => 0

lemma snapshotInv_initial : snapshotInv initialFactoryState := by
  refine ⟨fun _ => ⟨rfl, rfl, rfl, rfl⟩, fun h => absurd rfl h, ?_, ?_, ?_⟩ <;>
    intro h <;> simp [initialFactoryState] at h

lemma snapshotInv_step {s t : FactorySnapshotState} (hinv : snapshotInv s)
    (hstep : RefreshStep s t) : snapshotInv t := by
  obtain ⟨h0, h1, h2, h3, h4⟩ := hinv
  cases hstep with
  | acquire hpc hlock =>
    simp [snapshotInv]
  | writeStates hpc =>
    have hlock := h1 (by simp [hpc])
    simp [snapshotInv, hlock]
  | writeHealthy hpc =>
    have hlock := h1 (by simp [hpc])
    have hper := h2 hpc
    simp [snapshotInv, hlock, hper]
  | writeDegraded hpc =>
    have hlock := h1 (by simp [hpc])
    obtain ⟨hper, hh⟩ := h3 hpc
    simp [snapshotInv, hlock, hper, hh]
  | release hpc =>
    obtain ⟨hper, hh, hd⟩ := h4 hpc
    simp [snapshotInv, hper, hh, hd]

lemma snapshotInv_reachable {s : FactorySnapshotState}
    (h : ReachableFactoryState s) : snapshotInv s := by
  induction h with
  | init => exact snapshotInv_initial
  | step _ hstep ih => exact snapshotInv_step ih hstep

lemma probeLoop_snd_le (lb : BoundedLoadHashingLoadBalancer) (hash : Nat) :
    ∀ fuel attempt : Nat, (lb.probeLoop hash attempt fuel).2 ≤ fuel := by
  intro fuel
  induction fuel with
  | zero =>
    intro attempt
    simp [BoundedLoadHashingLoadBalancer.probeLoop]
  | succ n ih =>
    intro attempt
    simp only [BoundedLoadHashingLoadBalancer.probeLoop]
    cases hc : lb.hashing_lb hash attempt with
    | none => simpa using ih (attempt + 1)
    | some c =>
      by_cases hov : lb.hostOverloaded c (lb.weightOf c) = true
      · simpa [hov] using ih (attempt + 1)
      · simp [hov]

lemma probeLoop_fst_isSome (lb : BoundedLoadHashingLoadBalancer) (hash : Nat)
    (h0 : (lb.hashing_lb hash 0).isSome = true) :
    ∀ fuel attempt : Nat, ((lb.probeLoop hash attempt fuel).1).isSome = true := by
  intro fuel
  induction fuel with
  | zero =>
    intro attempt
    simpa [BoundedLoadHashingLoadBalancer.probeLoop] using h0
  | succ n ih =>
    intro attempt
    simp only [BoundedLoadHashingLoadBalancer.probeLoop]
    cases hc : lb.hashing_lb hash attempt with
    | none => simpa using ih (attempt + 1)
    | some c =>
      by_cases hov : lb.hostOverloaded c (lb.weightOf c) = true
      · simpa [hov] using ih (attempt + 1)
      · simp [hov]

/-- C1 counterexample: as frozen, the claim fails at hash balance factor 100.
There the decorator is the pass-through the spec prescribes, so a call with
attempt 1 forwards attempt 1 to an inner table that serves only attempt 0:
the inner table returns a host at (5, 0), yet the decorator returns absent
at (5, 1). -/
theorem boundedLoad_passthrough_attempt_counterexample :
    (cexPassThroughLb.hashing_lb 5 0).isSome = true ∧
    cexPassThroughLb.chooseHost 5 1 = none :=
  ⟨rfl, rfl⟩

/-- C1 (amended): whenever bounding is in effect (hash balance factor not
100), if the inner hashing table returns a host at attempt 0 then the
bounded-load decorator returns a host for every hash and every attempt: when
every probe up to the bound is overloaded, the fallback is the attempt-0
candidate, so the call is never absent. -/
theorem boundedLoad_chooseHost_never_absent
    (lb : BoundedLoadHashingLoadBalancer) (hash attempt : Nat)
    (hfac : lb.hash_balance_factor ≠ 100)
    (h0 : (lb.hashing_lb hash 0).isSome = true) :
    (lb.chooseHost hash attempt).isSome = true := by
  unfold BoundedLoadHashingLoadBalancer.chooseHost
  rw [if_neg hfac]
  exact probeLoop_fst_isSome lb hash h0 lb.numHosts attempt

/-- C1 witness: the amended theorem applied at a concrete enabled decorator,
hash 9, attempt 3. -/
theorem boundedLoad_chooseHost_never_absent_witness :
    demoBoundedLb.hash_balance_factor ≠ 100 ∧
    (demoBoundedLb.hashing_lb 9 0).isSome = true ∧
    (demoBoundedLb.chooseHost 9 3).isSome = true :=
  ⟨by decide, rfl,
    boundedLoad_chooseHost_never_absent demoBoundedLb 9 3 (by decide) rfl⟩

/-- C2: at hash balance factor 100 (bounding disabled) the decorator is a
pure pass-through: for every hash, `chooseHost(h, 0)` equals the wrapped
inner table's `chooseHost(h, 0)`. -/
theorem boundedLoad_factor100_passthrough
    (lb : BoundedLoadHashingLoadBalancer) (hash : Nat)
    (hfac : lb.hash_balance_factor = 100) :
    lb.chooseHost hash 0 = lb.hashing_lb hash 0 := by
  simp [BoundedLoadHashingLoadBalancer.chooseHost, hfac]

/-- C2 witness: the theorem applied at a concrete factor-100 decorator and
hash 7. -/
theorem boundedLoad_factor100_passthrough_witness :
    demoPassLb.chooseHost 7 0 = demoPassLb.hashing_lb 7 0 :=
  boundedLoad_factor100_passthrough demoPassLb 7 rfl

/-- C3: hash-key precedence. A present, string-typed, non-empty metadata
override under envoy.lb/hash_key is the hash key; otherwise (absent,
non-string, or empty-string override) the key is the hostname when
use_hostname is set, else the address string. -/
theorem hashKey_precedence (host : Host) (use_hostname : Bool) :
    (∀ s : String,
      metadataValue host.metadata ENVOY_LB HASH_KEY = ProtoValue.stringValue s →
      s ≠ "" → HashingLoadBalancer.hashKey host use_hostname = s) ∧
    ((∀ s : String, s ≠ "" →
        metadataValue host.metadata ENVOY_LB HASH_KEY ≠ ProtoValue.stringValue s) →
      HashingLoadBalancer.hashKey host use_hostname =
        if use_hostname then host.hostname else host.address) := by
  constructor
  · intro s hval hs
    simp [HashingLoadBalancer.hashKey, hval, ProtoValue.string_value, hs]
  · intro hno
    cases hv : metadataValue host.metadata ENVOY_LB HASH_KEY with
    | stringValue s =>
      by_cases hse : s = ""
      · simp [HashingLoadBalancer.hashKey, hv, ProtoValue.string_value, hse]
      · exact absurd hv (hno s hse)
    | notSet => simp [HashingLoadBalancer.hashKey, hv, ProtoValue.string_value]
    | nullValue => simp [HashingLoadBalancer.hashKey, hv, ProtoValue.string_value]
    | numberValue n => simp [HashingLoadBalancer.hashKey, hv, ProtoValue.string_value]
    | boolValue b => simp [HashingLoadBalancer.hashKey, hv, ProtoValue.string_value]
    | structValue => simp [HashingLoadBalancer.hashKey, hv, ProtoValue.string_value]
    | listValue => simp [HashingLoadBalancer.hashKey, hv, ProtoValue.string_value]

/-- C3 witness: a host with override "override-key" hashes to the override
even though hostname and address differ; a host with no override and
use_hostname set hashes to its hostname. -/
theorem hashKey_precedence_witness :
    HashingLoadBalancer.hashKey demoHostB false = "override-key" ∧
    HashingLoadBalancer.hashKey demoHostA true = "host-a" := by
  refine ⟨(hashKey_precedence demoHostB false).1 "override-key" (by decide) (by decide),
          (hashKey_precedence demoHostA true).2 ?_⟩
  intro s _ hcon
  simp [metadataValue, metadataLookup, demoHostA] at hcon

/-- C4: a present but non-string-typed hash-key override never fails: hashKey
ignores it and returns the hostname (when use_hostname) or else the address,
exactly the fallback used when the override is absent. -/
theorem hashKey_nonstring_fallback (host : Host) (use_hostname : Bool)
    (v : ProtoValue)
    (hpres : metadataLookup host.metadata ENVOY_LB HASH_KEY = some v)
    (hns : ∀ s : String, v ≠ ProtoValue.stringValue s) :
    HashingLoadBalancer.hashKey host use_hostname =
      if use_hostname then host.hostname else host.address := by
  have hval : metadataValue host.metadata ENVOY_LB HASH_KEY = v := by
    simp [metadataValue, hpres]
  have hsv : v.string_value = "" := by
    cases v <;> first | rfl | exact absurd rfl (hns _)
  simp [HashingLoadBalancer.hashKey, hval, hsv]

/-- C4 witness: a host carrying a number-typed override falls back to its
address string. -/
theorem hashKey_nonstring_fallback_witness :
    HashingLoadBalancer.hashKey demoHostC false = "10.0.0.3:80" :=
  hashKey_nonstring_fallback demoHostC false (ProtoValue.numberValue 7)
    (by decide) (fun s h => ProtoValue.noConfusion h)

/-- C5: snapshot publication is atomic for readers. In every state reachable
under the publication protocol, a `create()` observation (available exactly
when the factory mutex is free) captures per-priority states, healthy load
and degraded load from the same rebuild generation: no reader observes a mix
of old and new components. -/
theorem factory_create_snapshot_atomic (s : FactorySnapshotState)
    (hreach : ReachableFactoryState s) (g1 g2 g3 : Nat)
    (hobs : factoryCreate s = some (g1, g2, g3)) : g1 = g2 ∧ g2 = g3 := by
  obtain ⟨h0, h1, h2, h3, h4⟩ := snapshotInv_reachable hreach
  by_cases hl : s.lock_held = true
  · simp [factoryCreate, hl] at hobs
  · simp only [Bool.not_eq_true] at hl
    have hpc : s.pc = RefreshPc.outside := by
      by_contra hne
      rw [h1 hne] at hl
      cases hl
    obtain ⟨-, hp, hh, hd⟩ := h0 hpc
    simp only [factoryCreate, hl, Bool.false_eq_true, if_false,
      Option.some.injEq, Prod.mk.injEq] at hobs
    obtain ⟨e1, e2, e3⟩ := hobs
    constructor <;> omega

/-- C5 witness: the theorem applied at the initial reachable state, where
`create()` observes generation 0 for all three components. -/
theorem factory_create_snapshot_atomic_witness :
    factoryCreate initialFactoryState = some (0, 0, 0) ∧ (0 = 0 ∧ 0 = 0) :=
  ⟨rfl, factory_create_snapshot_atomic initialFactoryState
    ReachableFactoryState.init 0 0 0 rfl⟩

/-- C6: for a priority whose eligible host set is empty after the healthy,
degraded, all-hosts fallback, refresh records a null table with the global
panic flag set; for a non-empty eligible set it records a non-null table with
the panic flag clear; and refresh() records exactly one such state per
priority level. -/
theorem refresh_perPriorityState_spec
    (builder : NormalizedHostWeightVector → Rat → Rat → HashingTable)
    (load : Host → Nat) (factor : Option Nat)
    (healthy degraded all : List (Host × Nat)) :
    ((eligibleHosts healthy degraded all).isEmpty = true →
      (refreshPriority builder load factor healthy degraded all).current_lb_ = none ∧
      (refreshPriority builder load factor healthy degraded all).global_panic_ = true) ∧
    ((eligibleHosts healthy degraded all).isEmpty = false →
      ((refreshPriority builder load factor healthy degraded all).current_lb_).isSome = true ∧
      (refreshPriority builder load factor healthy degraded all).global_panic_ = false) ∧
    (∀ ps, refresh builder load factor ps =
      ps.map (fun p => refreshPriority builder load factor p.1 p.2.1 p.2.2)) := by
  refine ⟨?_, ?_, fun ps => rfl⟩ <;> intro he <;>
    cases hb : factor <;> simp [refreshPriority, he, hb]

/-- C6 witness: the theorem applied at one priority with an eligible host and
a concrete builder: non-null table, panic clear. -/
theorem refresh_perPriorityState_spec_witness :
    (eligibleHosts [(demoHostA, 1)] [] []).isEmpty = false ∧
    ((refreshPriority demoBuilder demoLoad none [(demoHostA, 1)] [] []).current_lb_).isSome = true ∧
    (refreshPriority demoBuilder demoLoad none [(demoHostA, 1)] [] []).global_panic_ = false :=
  ⟨by decide, (refresh_perPriorityState_spec demoBuilder demoLoad none
    [(demoHostA, 1)] [] []).2.1 (by decide)⟩

/-- C7: the re-probe loop of the bounded-load chooseHost makes at most as
many probes as there are distinct hosts in the table, on every input (the
function is total, so every call returns). -/
theorem boundedLoad_probe_bound (lb : BoundedLoadHashingLoadBalancer)
    (hash attempt : Nat) :
    lb.chooseHostProbes hash attempt ≤ lb.numHosts := by
  unfold BoundedLoadHashingLoadBalancer.chooseHostProbes
  split
  · exact Nat.zero_le _
  · exact probeLoop_snd_le lb hash lb.numHosts attempt

/-- C8: preconnect is unsupported: peekAnotherHost returns no host for every
context, both on the thread-aware base load balancer and on every worker
LoadBalancerImpl. -/
theorem peekAnotherHost_always_none (base : ThreadAwareLoadBalancerBase)
    (worker : LoadBalancerImpl) (context : LoadBalancerContext) :
    base.peekAnotherHost context = none ∧
    worker.peekAnotherHost context = none :=
  ⟨rfl, rfl⟩

/-- C9: threadSafeSetCrossPriorityHostMap writes only the cross-priority host
map: the factory's per-priority state array and healthy/degraded load vectors
are unchanged, and a subsequent threadSafeGetCrossPriorityHostMap returns
exactly the map that was set. -/
theorem setCrossPriorityHostMap_frame (s : ThreadAwareLoadBalancerBase)
    (m : HostMap) :
    (threadSafeSetCrossPriorityHostMap s m).factory_.per_priority_state_ =
      s.factory_.per_priority_state_ ∧
    (threadSafeSetCrossPriorityHostMap s m).factory_.healthy_per_priority_load_ =
      s.factory_.healthy_per_priority_load_ ∧
    (threadSafeSetCrossPriorityHostMap s m).factory_.degraded_per_priority_load_ =
      s.factory_.degraded_per_priority_load_ ∧
    threadSafeGetCrossPriorityHostMap (threadSafeSetCrossPriorityHostMap s m) = m :=
  ⟨rfl, rfl, rfl, rfl⟩

/-- C10: calling chooseHost directly on the thread-aware base hits the
NOT_IMPLEMENTED stub for every context; selection is supported only through a
worker obtained from the factory, which the base exposes via factory(). -/
theorem base_chooseHost_notImplemented (s : ThreadAwareLoadBalancerBase)
    (context : LoadBalancerContext) :
    s.chooseHost context = SelectResult.notImplemented ∧
    s.factory = s.factory_ :=
  ⟨rfl, rfl⟩
